import Mathlib

/-!
Shallow embedding of `src/mysql_mcp_server/server.py`, a single-file FastAPI
server exposing MySQL tables as resources and one `execute_sql` tool.

Modelling conventions:
* Python scalar values arriving from the database are `PyVal`
  (text / integer / `None`); Python `str()` is `PyVal.pyStr`.
* Environment variables are an `Env` of `Option String` fields
  (`none` = variable unset).
* Python exceptions are the `Except PyErr _` error channel.  `except Error`
  clauses in the source catch only MySQL driver errors; driver errors are
  delivered through the `DBConn` oracle, so a `PyErr` value reaching a
  handler's result models an exception that escaped to the transport layer.
* The database is an oracle `DBConn`: either `unreachable msg`
  (`connect(**config)` raises `Error(msg)`) or `reachable execQ` where
  `execQ q` is the outcome of `cursor.execute(q)` plus the fetched result
  (`Except.error msg` models the driver raising `Error(msg)`).
* The external advisory HTTP call (`requests.post`) is modelled by its
  observed `HttpResponse`.
* `call_tool` additionally records, as booleans, whether the advisory client
  was called, whether a database connection was attempted, and whether
  `conn.commit()` ran, so that ordering / effect claims are statable.
-/

namespace MySQLMCP

/-- A Python scalar value as it appears in a database row: text, integer,
or `None` (server.py data model: text | number | null). -/
inductive PyVal where
  | str (s : String)
  | int (n : Int)
  | null
deriving DecidableEq, Repr

/-- Python `str()` applied to a scalar: strings unchanged, integers in
base 10, `None` rendered as the literal `"None"`. -/
def PyVal.pyStr : PyVal → String
  | PyVal.str s => s
  | PyVal.int n => toString n
  | PyVal.null => "None"

/-- Python exceptions that the handlers can raise or observe.  MySQL driver
errors (`mysql.connector.Error`) never appear here because every handler
catches them; the constructors below model the exceptions that the source
raises itself (`ValueError`, `RuntimeError`) or that builtin operations can
raise uncaught (`IndexError` from `table[0]`, `TypeError` from
`"\n".join` on non-strings, `JSONDecodeError` from `response.json()` on a
success-status advisory body that is not JSON). -/
inductive PyErr where
  | valueError (msg : String)
  | runtimeError (msg : String)
  | typeError
  | indexError
  | jsonDecodeError
deriving DecidableEq, Repr

/-- The process environment: the five MYSQL_* variables read by
`get_db_config` (server.py lines 34-38). `none` models an unset variable. -/
structure Env where
  mysql_host : Option String
  mysql_port : Option String
  mysql_user : Option String
  mysql_password : Option String
  mysql_database : Option String
deriving DecidableEq, Repr

/-- The validated connection configuration (server.py lines 33-39). -/
structure Config where
  host : String
  port : Int
  user : String
  password : String
  database : String
deriving DecidableEq, Repr

/-- The whitespace characters removed by Python `str.strip()`
(ASCII portion: space, tab, newline, carriage return, vertical tab,
form feed). -/
def isPySpace (c : Char) : Bool :=
  c == ' ' || c == '\t' || c == '\n' || c == '\r' || c == '\x0b' || c == '\x0c'

/-- Python `str.strip()`: remove leading and trailing whitespace. -/
def pyStrip (s : String) : String :=
  String.mk (((s.data.dropWhile isPySpace).reverse.dropWhile isPySpace).reverse)

/-- Python `str.upper()` (ASCII case mapping, which covers every character
the classifier compares). -/
def pyUpper (s : String) : String :=
  String.mk (s.data.map Char.toUpper)

/-- Python `s.startswith(pre)`. -/
def pyStartswith (s pre : String) : Bool :=
  pre.data.isPrefixOf s.data

/-- Python `int()` on the decimal strings reachable through MYSQL_PORT:
an optional minus sign followed by one or more digits (the further
tolerances of Python `int()`, such as surrounding whitespace or an
explicit plus sign, are not exercised by the code under verification);
`Option.none` models the `ValueError` raise. -/
def digitsToNat : List Char → Nat → Option Nat
  | [], acc => Option.some acc
  | c :: rest, acc =>
      if c.isDigit then digitsToNat rest (acc * 10 + (c.toNat - 48))
      else Option.none

/-- Python `int(s)` for sign-and-digits strings; see `digitsToNat`. -/
def pyInt (s : String) : Option Int :=
  match s.data with
  | [] => Option.none
  | '-' :: rest =>
      if rest.isEmpty then Option.none
      else (digitsToNat rest 0).map (fun n => -(n : Int))
  | cs =>
      if (cs.head?.map Char.isDigit).getD false then
        (digitsToNat cs 0).map (fun n => (n : Int))
      else Option.none

/-- Python truthiness of `os.getenv` results as used in
`all([config["user"], config["password"], config["database"]])`:
`None` and the empty string are falsy. -/
def truthy : Option String → Bool
  | Option.none => false
  | Option.some s => s != ""

/-- Embedding of `get_db_config` (server.py lines 31-47).  Builds the config
dict — `int(os.getenv("MYSQL_PORT", "3306"))` may raise `ValueError` first —
then raises `ValueError("Missing required database configuration")` unless
user, password and database are all truthy. -/
def get_db_config (env : Env) : Except PyErr Config :=
  let hostS := env.mysql_host.getD "localhost"
  let portS := env.mysql_port.getD "3306"
  match pyInt portS with
  | Option.none =>
      Except.error (PyErr.valueError ("invalid literal for int() with base 10: " ++ portS))
  | Option.some port =>
      if truthy env.mysql_user && truthy env.mysql_password && truthy env.mysql_database then
        Except.ok { host := hostS, port := port,
                    user := env.mysql_user.getD "",
                    password := env.mysql_password.getD "",
                    database := env.mysql_database.getD "" }
      else
        Except.error (PyErr.valueError "Missing required database configuration")

/-- Python f-string rendering of an `os.getenv` result: `None` when unset. -/
def pyShowOpt : Option String → String
  | Option.none => "None"
  | Option.some s => s

/-- Embedding of the module-level startup code (server.py lines 14-29):
`load_dotenv()`, logging configuration, the three informational log lines
for MYSQL_USER / MYSQL_PASSWORD / MYSQL_DATABASE, and `app = FastAPI()`.
None of it validates the configuration — in particular `get_db_config` is
never called at module level — so startup succeeds for every environment.
The returned value is the list of log lines emitted. -/
def moduleStartup (env : Env) : Except PyErr (List String) :=
  Except.ok
    [ "MYSQL_USER: " ++ pyShowOpt env.mysql_user,
      "MYSQL_PASSWORD: " ++ pyShowOpt env.mysql_password,
      "MYSQL_DATABASE: " ++ pyShowOpt env.mysql_database ]

/-- One observed response of the external advisory endpoint: HTTP status,
raw body text, and the body parsed as a JSON object with string values
(the shape `.get("response", "")` expects).  `jsonObject = Option.none`
models a body on which `response.json()` cannot produce such an object —
e.g. an HTML page — so that the `.json()` call raises uncaught (a
valid-JSON body that is not an object, whose `.get` would raise just as
uncaught, is modelled the same way). -/
structure HttpResponse where
  status_code : Int
  text : String
  jsonObject : Option (List (String × String))
deriving DecidableEq, Repr

/-- Embedding of `query_claude` (server.py lines 49-67): on status 200 it
returns `response.json().get("response", "")`, where `response.json()`
raises `JSONDecodeError` when the body is not JSON; on any other status it
returns a string embedding the status code and body instead of raising
(and never calls `response.json()`). -/
def query_claude (resp : HttpResponse) : Except PyErr String :=
  if resp.status_code == 200 then
    match resp.jsonObject with
    | Option.none => Except.error PyErr.jsonDecodeError
    | Option.some obj => Except.ok ((obj.lookup "response").getD "")
  else
    Except.ok ("Error: " ++ toString resp.status_code ++ " - " ++ resp.text)

/-- The result delivered by a cursor after `execute`: the `description`
column names, the `fetchall()` rows, and `rowcount`. -/
structure DBResult where
  columns : List String
  rows : List (List PyVal)
  rowcount : Int
deriving DecidableEq, Repr

/-- Database oracle for one request: `connect(**config)` either raises
`Error(msg)` (`unreachable`) or yields a connection on which
`cursor.execute(q)` produces `execQ q` (`Except.error msg` models the
driver raising `Error(msg)` during execution). -/
inductive DBConn where
  | unreachable (msg : String)
  | reachable (execQ : String → Except String DBResult)

/-- An MCP Resource as constructed in `list_resources`
(server.py lines 89-94). -/
structure Resource where
  uri : String
  name : String
  mimeType : String
  description : String
deriving DecidableEq, Repr

/-- An MCP TextContent as constructed in `call_tool`. -/
structure TextContent where
  type : String
  text : String
deriving DecidableEq, Repr

/-- A Python list comprehension whose element expression may raise: elements
are evaluated left to right and the first exception propagates. -/
def pyMapExcept (f : α → Except PyErr β) : List α → Except PyErr (List β)
  | [] => Except.ok []
  | a :: l =>
    match f a with
    | Except.error e => Except.error e
    | Except.ok b =>
      match pyMapExcept f l with
      | Except.error e => Except.error e
      | Except.ok bs => Except.ok (b :: bs)

/-- The Resource built for one `SHOW TABLES` row value `v` (= `table[0]`):
f-strings apply `str()` implicitly, hence `pyStr`
(server.py lines 89-94). -/
def mkTableResource (v : PyVal) : Resource :=
  { uri := "mysql://" ++ v.pyStr ++ "/data",
    name := "Table: " ++ v.pyStr,
    mimeType := "text/plain",
    description := "Data in table: " ++ v.pyStr }

/-- Embedding of `list_resources` (server.py lines 75-99).
`config = get_db_config()` runs BEFORE the `try`, so its `ValueError`
propagates.  Inside the `try`, any driver `Error` (connect or execute)
is caught and the handler returns `[]`.  `table[0]` on an empty row raises
`IndexError`, which `except Error` does not catch, so it escapes. -/
def list_resources (env : Env) (db : DBConn) : Except PyErr (List Resource) :=
  match get_db_config env with
  | Except.error e => Except.error e
  | Except.ok _config =>
    match db with
    | DBConn.unreachable _ => Except.ok []
    | DBConn.reachable execQ =>
      match execQ "SHOW TABLES" with
      | Except.error _ => Except.ok []
      | Except.ok res =>
        match pyMapExcept (fun row =>
            match row.head? with
            | Option.none => Except.error PyErr.indexError
            | Option.some v => Except.ok (mkTableResource v)) res.rows with
        | Except.error e => Except.error e
        | Except.ok resources => Except.ok resources

/-- The result-set serialisation performed inline in `read_resource`
(server.py lines 111-114): one comma-joined line per row, each scalar
through `str()`, with a comma-joined header of column names prepended,
lines joined by newline. -/
def formatResultRead (columns : List String) (rows : List (List PyVal)) : String :=
  String.intercalate "\n"
    (String.intercalate "," columns ::
      rows.map (fun row => String.intercalate "," (row.map PyVal.pyStr)))

/-- The result-set serialisation performed inline in `call_tool`'s SELECT
branch (server.py lines 167-170); transcribed separately from
`formatResultRead` because the source duplicates the code. -/
def formatResultTool (columns : List String) (rows : List (List PyVal)) : String :=
  String.intercalate "\n"
    (String.intercalate "," columns ::
      rows.map (fun row => String.intercalate "," (row.map PyVal.pyStr)))

/-- Embedding of `read_resource` (server.py lines 101-118).
`config = get_db_config()` runs before the `try` (its `ValueError`
propagates); inside the `try` any driver `Error` is caught and re-raised as
`RuntimeError("Database error: " + str(e))`. -/
def read_resource (env : Env) (db : DBConn) (table_name : String) : Except PyErr String :=
  match get_db_config env with
  | Except.error e => Except.error e
  | Except.ok _config =>
    match db with
    | DBConn.unreachable msg =>
        Except.error (PyErr.runtimeError ("Database error: " ++ msg))
    | DBConn.reachable execQ =>
      match execQ ("SELECT * FROM " ++ table_name ++ " LIMIT 100") with
      | Except.error msg =>
          Except.error (PyErr.runtimeError ("Database error: " ++ msg))
      | Except.ok res => Except.ok (formatResultRead res.columns res.rows)

/-- The three-way query classification computed inline in `call_tool`
(server.py lines 160 and 166): strip, uppercase, then prefix tests. -/
inductive QueryClass where
  | ShowTables
  | Select
  | Other
deriving DecidableEq, Repr

/-- `query.strip().upper().startswith("SHOW TABLES")` tested first, then
`query.strip().upper().startswith("SELECT")`, else the final branch
(server.py lines 160, 166, 172). -/
def classify (query : String) : QueryClass :=
  if pyStartswith (pyUpper (pyStrip query)) "SHOW TABLES" then QueryClass.ShowTables
  else if pyStartswith (pyUpper (pyStrip query)) "SELECT" then QueryClass.Select
  else QueryClass.Other

/-- `table[0]` in the SHOW TABLES branch (server.py lines 161-164): the
first cell of a fetched row; raises `IndexError` on an empty row
(uncaught by `except Error`). -/
def headCell (row : List PyVal) : Except PyErr PyVal :=
  match row.head? with
  | Option.none => Except.error PyErr.indexError
  | Option.some v => Except.ok v

/-- The runtime check `"\n".join` performs on each element: it must be a
string, otherwise `TypeError` (uncaught by `except Error`). -/
def asJoinableStr (v : PyVal) : Except PyErr String :=
  match v with
  | PyVal.str s => Except.ok s
  | _ => Except.error PyErr.typeError

/-- Body of the SHOW TABLES branch after the helpers above: collect
`table[0]` of each row, require them to be strings, and join the header
with them. -/
def showTablesText (database : String) (rows : List (List PyVal)) : Except PyErr String :=
  match pyMapExcept headCell rows with
  | Except.error e => Except.error e
  | Except.ok items =>
    match pyMapExcept asJoinableStr items with
    | Except.error e => Except.error e
    | Except.ok strs =>
        Except.ok (String.intercalate "\n" (("Tables_in_" ++ database) :: strs))

/-- Everything observable about one `call_tool` invocation: the returned
value (or escaped exception), and whether the advisory client was called,
a database connection attempted, and `conn.commit()` executed. -/
structure CallToolResult where
  result : Except PyErr (List TextContent)
  advisoryCalled : Bool
  connectAttempted : Bool
  committed : Bool
deriving Repr

/-- Embedding of `call_tool` (server.py lines 141-178), in source order:
1. `config = get_db_config()` — may raise `ValueError` (uncaught);
2. `query = arguments.get("query")`; `if not query: raise ValueError`
   (`None` and the empty string are falsy);
3. `claude_response = query_claude(query)` — runs before the `try`, so an
   exception it raises (`JSONDecodeError` on a success-status non-JSON
   body) escapes `call_tool` before any connection is attempted; when it
   returns, its value is only logged;
4. `try`: connect, `cursor.execute(query)`, then branch on the
   classification; SHOW TABLES joins a header with the table names,
   SELECT serialises the result set, anything else commits and reports
   `cursor.rowcount`.  `except Error` returns an error TextContent. -/
def call_tool (env : Env) (db : DBConn) (resp : HttpResponse)
    (arguments : List (String × String)) : CallToolResult :=
  match get_db_config env with
  | Except.error e =>
      { result := Except.error e,
        advisoryCalled := false, connectAttempted := false, committed := false }
  | Except.ok config =>
    match arguments.lookup "query" with
    | Option.none =>
        { result := Except.error (PyErr.valueError "Query is required"),
          advisoryCalled := false, connectAttempted := false, committed := false }
    | Option.some query =>
      if query = "" then
        { result := Except.error (PyErr.valueError "Query is required"),
          advisoryCalled := false, connectAttempted := false, committed := false }
      else
        match query_claude resp with
        | Except.error e =>
            { result := Except.error e,
              advisoryCalled := true, connectAttempted := false, committed := false }
        | Except.ok _claude_response =>
        match db with
        | DBConn.unreachable msg =>
            { result := Except.ok [{ type := "text",
                                     text := "Error executing query: " ++ msg }],
              advisoryCalled := true, connectAttempted := true, committed := false }
        | DBConn.reachable execQ =>
          match execQ query with
          | Except.error msg =>
              { result := Except.ok [{ type := "text",
                                       text := "Error executing query: " ++ msg }],
                advisoryCalled := true, connectAttempted := true, committed := false }
          | Except.ok res =>
            match classify query with
            | QueryClass.ShowTables =>
              match showTablesText config.database res.rows with
              | Except.error e =>
                  { result := Except.error e,
                    advisoryCalled := true, connectAttempted := true, committed := false }
              | Except.ok t =>
                  { result := Except.ok [{ type := "text", text := t }],
                    advisoryCalled := true, connectAttempted := true, committed := false }
            | QueryClass.Select =>
                { result := Except.ok [{ type := "text",
                                         text := formatResultTool res.columns res.rows }],
                  advisoryCalled := true, connectAttempted := true, committed := false }
            | QueryClass.Other =>
                { result := Except.ok [{ type := "text",
                                         text := "Query executed successfully. Rows affected: "
                                                   ++ toString res.rowcount }],
                  advisoryCalled := true, connectAttempted := true, committed := true }

/-! ### Concrete fixtures used by witness and counterexample theorems -/

/-- A fully-populated environment (all five MYSQL_* variables set). -/
def envOk : Env :=
  { mysql_host := Option.some "localhost", mysql_port := Option.some "3306",
    mysql_user := Option.some "root", mysql_password := Option.some "pw",
    mysql_database := Option.some "mydb" }

/-- The configuration `get_db_config` derives from `envOk`. -/
def configOk : Config :=
  { host := "localhost", port := 3306, user := "root",
    password := "pw", database := "mydb" }

/-- An environment with MYSQL_USER unset (host and port left to their
defaults), so that `get_db_config` raises. -/
def envNoUser : Env :=
  { mysql_host := Option.none, mysql_port := Option.none,
    mysql_user := Option.none, mysql_password := Option.some "pw",
    mysql_database := Option.some "mydb" }

/-- An advisory response with a non-success HTTP status. -/
def resp500 : HttpResponse :=
  { status_code := 500, text := "oops", jsonObject := Option.none }

/-- An advisory response with a success HTTP status and a JSON-object body
carrying a "response" field. -/
def resp200 : HttpResponse :=
  { status_code := 200, text := "\x7b\"response\": \"fine\"\x7d",
    jsonObject := Option.some [("response", "fine")] }

/-- A success-status advisory response whose body is an HTML page, not
JSON, so `response.json()` raises. -/
def respHtml : HttpResponse :=
  { status_code := 200, text := "<html>claude</html>",
    jsonObject := Option.none }

/-! ### Helper lemmas -/

/-- Extracting `table[0]` from rows that are singleton string cells
succeeds and yields exactly those cells. -/
theorem pyMapExcept_headCell_strs (names : List String) :
    pyMapExcept headCell (names.map (fun n => ([PyVal.str n] : List PyVal)))
      = Except.ok (names.map PyVal.str) := by
  induction names with
  | nil => rfl
  | cons a l ih => simp [pyMapExcept, headCell, ih]

/-- The join-time string check succeeds on string cells and recovers the
underlying names. -/
theorem pyMapExcept_asJoinableStr_strs (names : List String) :
    pyMapExcept asJoinableStr (names.map PyVal.str) = Except.ok names := by
  induction names with
  | nil => rfl
  | cons a l ih => simp [pyMapExcept, asJoinableStr, ih]

/-- On a result set whose rows are singleton string cells, the SHOW TABLES
branch produces the header followed by one line per table name, in order. -/
theorem showTablesText_strs (database : String) (names : List String) :
    showTablesText database (names.map (fun n => [PyVal.str n]))
      = Except.ok (String.intercalate "\n" (("Tables_in_" ++ database) :: names)) := by
  simp [showTablesText, pyMapExcept_headCell_strs, pyMapExcept_asJoinableStr_strs]

/-! ### Claim theorems -/

/-- C2: classification strips surrounding whitespace, uppercases, then
tests prefix equality against "SHOW TABLES" first and "SELECT" second,
everything else being Other (stated over the mathematical prefix relation
`<+:` on the character lists, so the statement is independent of the
boolean implementation); and the three concrete examples classify as
Select, ShowTables and Other. -/
theorem c2_classify_spec :
    (∀ q : String,
      classify q =
        (if "SHOW TABLES".data <+: (pyUpper (pyStrip q)).data then
          QueryClass.ShowTables
         else if "SELECT".data <+: (pyUpper (pyStrip q)).data then
          QueryClass.Select
         else QueryClass.Other))
    ∧ classify "  select * from t" = QueryClass.Select
    ∧ classify "show tables" = QueryClass.ShowTables
    ∧ classify "update t set x=1" = QueryClass.Other := by
  refine ⟨fun q => ?_, by decide, by decide, by decide⟩
  unfold classify pyStartswith
  by_cases h1 : "SHOW TABLES".data <+: (pyUpper (pyStrip q)).data
  · rw [if_pos (List.isPrefixOf_iff_prefix.mpr h1), if_pos h1]
  · rw [if_neg (fun hb => h1 (List.isPrefixOf_iff_prefix.mp hb)), if_neg h1]
    by_cases h2 : "SELECT".data <+: (pyUpper (pyStrip q)).data
    · rw [if_pos (List.isPrefixOf_iff_prefix.mpr h2), if_pos h2]
    · rw [if_neg (fun hb => h2 (List.isPrefixOf_iff_prefix.mp hb)), if_neg h2]

/-- C5: both result-set serialisers produce a comma-joined header of column
names followed by one comma-joined line per row with each scalar through
Python str(), lines joined by newline; on columns ["a","b"] and rows
[[1,"x"],[2,null]] the output is exactly "a,b\n1,x\n2,None" (null rendered
"None"). -/
theorem c5_formatter_spec :
    (∀ (cols : List String) (rows : List (List PyVal)),
        formatResultRead cols rows
          = String.intercalate "\n"
              (String.intercalate "," cols ::
                rows.map (fun row => String.intercalate "," (row.map PyVal.pyStr)))
        ∧ formatResultTool cols rows
          = String.intercalate "\n"
              (String.intercalate "," cols ::
                rows.map (fun row => String.intercalate "," (row.map PyVal.pyStr))))
    ∧ formatResultRead ["a", "b"]
        [[PyVal.int 1, PyVal.str "x"], [PyVal.int 2, PyVal.null]]
        = "a,b\n1,x\n2,None"
    ∧ formatResultTool ["a", "b"]
        [[PyVal.int 1, PyVal.str "x"], [PyVal.int 2, PyVal.null]]
        = "a,b\n1,x\n2,None" :=
  ⟨fun _ _ => ⟨rfl, rfl⟩, by decide, by decide⟩

/-- C9: the serialisation transcribed from read_resource (lines 111-114)
and the one transcribed from call_tool's SELECT branch (lines 167-170)
agree on every column list and row sequence. -/
theorem c9_formatters_agree :
    ∀ (cols : List String) (rows : List (List PyVal)),
      formatResultRead cols rows = formatResultTool cols rows :=
  fun _ _ => rfl

/-- C1 counterexample: with a fully valid configuration and an unreachable
database, Read Resource does not return a payload at all — it raises a
RuntimeError to the transport layer — refuting the claim that every
query-issuing handler returns an empty sequence or an error payload. -/
theorem c1_read_resource_raises :
    read_resource envOk (DBConn.unreachable "connection refused") "users"
      = Except.error (PyErr.runtimeError "Database error: connection refused")
    ∧ (read_resource envOk (DBConn.unreachable "connection refused") "users").toOption
      = Option.none :=
  ⟨rfl, rfl⟩

/-- C1 amended: with a valid configuration and an unreachable database,
List Resources returns the empty sequence and Invoke Tool returns a
well-formed error-payload TextContent, but Read Resource raises a
RuntimeError carrying the driver message instead of returning a payload. -/
theorem c1_unreachable_db_behaviour (env : Env) (config : Config)
    (msg tbl query : String) (resp : HttpResponse) (s : String)
    (hc : get_db_config env = Except.ok config) (hq : query ≠ "")
    (hcr : query_claude resp = Except.ok s) :
    list_resources env (DBConn.unreachable msg) = Except.ok []
    ∧ read_resource env (DBConn.unreachable msg) tbl
        = Except.error (PyErr.runtimeError ("Database error: " ++ msg))
    ∧ call_tool env (DBConn.unreachable msg) resp [("query", query)]
        = { result := Except.ok
              [{ type := "text", text := "Error executing query: " ++ msg }],
            advisoryCalled := true, connectAttempted := true,
            committed := false } := by
  refine ⟨?_, ?_, ?_⟩ <;>
    simp [list_resources, read_resource, call_tool, hc, List.lookup, hq, hcr]

/-- Witness for the amended C1 at a concrete valid environment and
unreachable database. -/
theorem c1_unreachable_db_behaviour_witness :
    list_resources envOk (DBConn.unreachable "boom") = Except.ok []
    ∧ read_resource envOk (DBConn.unreachable "boom") "users"
        = Except.error (PyErr.runtimeError "Database error: boom")
    ∧ call_tool envOk (DBConn.unreachable "boom") resp500 [("query", "SELECT 1")]
        = { result := Except.ok
              [{ type := "text", text := "Error executing query: boom" }],
            advisoryCalled := true, connectAttempted := true,
            committed := false } :=
  c1_unreachable_db_behaviour envOk configOk "boom" "users" "SELECT 1" resp500
    "Error: 500 - oops" rfl (by decide) rfl

/-- C3: when the query classifies as Other and execution succeeds, Invoke
Tool commits the transaction and returns a single TextContent reading
"Query executed successfully. Rows affected: n" with n the cursor's
affected-row count. -/
theorem c3_other_commits (env : Env) (config : Config)
    (execQ : String → Except String DBResult) (resp : HttpResponse)
    (query : String) (res : DBResult) (s : String)
    (hc : get_db_config env = Except.ok config) (hq : query ≠ "")
    (hcr : query_claude resp = Except.ok s)
    (he : execQ query = Except.ok res)
    (hcl : classify query = QueryClass.Other) :
    call_tool env (DBConn.reachable execQ) resp [("query", query)]
      = { result := Except.ok
            [{ type := "text",
               text := "Query executed successfully. Rows affected: "
                         ++ toString res.rowcount }],
          advisoryCalled := true, connectAttempted := true,
          committed := true } := by
  simp [call_tool, hc, List.lookup, hq, hcr, he, hcl]

/-- Witness for C3: a DELETE affecting one row yields the "Rows affected: 1"
TextContent with the commit flag set. -/
theorem c3_other_commits_witness :
    call_tool envOk
        (DBConn.reachable (fun _ => Except.ok ⟨[], [], 1⟩)) resp200
        [("query", "DELETE FROM users WHERE id=1")]
      = { result := Except.ok
            [{ type := "text",
               text := "Query executed successfully. Rows affected: 1" }],
          advisoryCalled := true, connectAttempted := true,
          committed := true } :=
  c3_other_commits envOk configOk (fun _ => Except.ok ⟨[], [], 1⟩) resp200
    "DELETE FROM users WHERE id=1" ⟨[], [], 1⟩ "fine" rfl (by decide) rfl rfl
    (by decide)

/-- C4 counterexample: with MYSQL_USER unset, module startup succeeds (it
performs no configuration validation), and List Resources is then reached
and fails per-request with the missing-configuration ValueError — refuting
the claim that missing configuration is fatal at startup before any
request is served. -/
theorem c4_startup_not_fatal :
    moduleStartup envNoUser
      = Except.ok
          ["MYSQL_USER: None", "MYSQL_PASSWORD: pw", "MYSQL_DATABASE: mydb"]
    ∧ list_resources envNoUser (DBConn.unreachable "never reached")
      = Except.error (PyErr.valueError "Missing required database configuration") :=
  ⟨rfl, rfl⟩

/-- C4 amended: missing required configuration is not checked at startup;
instead each request handler constructs the configuration at the start of
the request and raises the ValueError per-request, before any database
connection attempt or advisory call. -/
theorem c4_config_error_per_request (env : Env) (db : DBConn)
    (resp : HttpResponse) (args : List (String × String)) (tbl : String)
    (hmiss : get_db_config env
      = Except.error (PyErr.valueError "Missing required database configuration")) :
    (∃ logs, moduleStartup env = Except.ok logs)
    ∧ list_resources env db
        = Except.error (PyErr.valueError "Missing required database configuration")
    ∧ read_resource env db tbl
        = Except.error (PyErr.valueError "Missing required database configuration")
    ∧ call_tool env db resp args
        = { result := Except.error
              (PyErr.valueError "Missing required database configuration"),
            advisoryCalled := false, connectAttempted := false,
            committed := false } := by
  refine ⟨⟨_, rfl⟩, ?_, ?_, ?_⟩ <;>
    simp [list_resources, read_resource, call_tool, hmiss]

/-- Witness for the amended C4 at the concrete user-less environment. -/
theorem c4_config_error_per_request_witness :
    (∃ logs, moduleStartup envNoUser = Except.ok logs)
    ∧ list_resources envNoUser (DBConn.unreachable "x")
        = Except.error (PyErr.valueError "Missing required database configuration")
    ∧ read_resource envNoUser (DBConn.unreachable "x") "users"
        = Except.error (PyErr.valueError "Missing required database configuration")
    ∧ call_tool envNoUser (DBConn.unreachable "x") resp200 [("query", "SELECT 1")]
        = { result := Except.error
              (PyErr.valueError "Missing required database configuration"),
            advisoryCalled := false, connectAttempted := false,
            committed := false } :=
  c4_config_error_per_request envNoUser (DBConn.unreachable "x") resp200
    [("query", "SELECT 1")] "users" rfl

/-- C6: when the query classifies as ShowTables and execution returns rows
of singleton string cells, Invoke Tool returns one TextContent whose text
is the header "Tables_in_{database}" followed by one line per table name,
in order. -/
theorem c6_show_tables (env : Env) (config : Config)
    (execQ : String → Except String DBResult) (resp : HttpResponse)
    (query : String) (res : DBResult) (names : List String) (s : String)
    (hc : get_db_config env = Except.ok config) (hq : query ≠ "")
    (hcr : query_claude resp = Except.ok s)
    (he : execQ query = Except.ok res)
    (hcl : classify query = QueryClass.ShowTables)
    (hrows : res.rows = names.map (fun n => [PyVal.str n])) :
    call_tool env (DBConn.reachable execQ) resp [("query", query)]
      = { result := Except.ok
            [{ type := "text",
               text := String.intercalate "\n"
                         (("Tables_in_" ++ config.database) :: names) }],
          advisoryCalled := true, connectAttempted := true,
          committed := false } := by
  simp [call_tool, hc, List.lookup, hq, hcr, he, hcl, hrows, showTablesText_strs]

/-- Witness for C6: SHOW TABLES against tables users and orders yields the
text "Tables_in_mydb\nusers\norders". -/
theorem c6_show_tables_witness :
    call_tool envOk
        (DBConn.reachable
          (fun _ => Except.ok ⟨[], [[PyVal.str "users"], [PyVal.str "orders"]], 0⟩))
        resp200 [("query", "SHOW TABLES")]
      = { result := Except.ok
            [{ type := "text", text := "Tables_in_mydb\nusers\norders" }],
          advisoryCalled := true, connectAttempted := true,
          committed := false } :=
  c6_show_tables envOk configOk
    (fun _ => Except.ok ⟨[], [[PyVal.str "users"], [PyVal.str "orders"]], 0⟩)
    resp200 "SHOW TABLES" ⟨[], [[PyVal.str "users"], [PyVal.str "orders"]], 0⟩
    ["users", "orders"] "fine" rfl (by decide) rfl rfl (by decide) rfl

/-- C7: with a valid configuration, invoking the tool with a missing or
empty "query" argument raises the ValueError("Query is required") before
the advisory client is called and before any database connection is
attempted (so the outcome is independent of the database and of the
advisory response). -/
theorem c7_missing_query_rejected (env : Env) (config : Config) (db : DBConn)
    (resp : HttpResponse) (args : List (String × String))
    (hc : get_db_config env = Except.ok config)
    (hq : args.lookup "query" = Option.none
          ∨ args.lookup "query" = Option.some "") :
    call_tool env db resp args
      = { result := Except.error (PyErr.valueError "Query is required"),
          advisoryCalled := false, connectAttempted := false,
          committed := false } := by
  rcases hq with h | h <;> simp [call_tool, hc, h]

/-- Witness for C7: no "query" key at all, with a concrete database oracle
and advisory response that are provably never consulted. -/
theorem c7_missing_query_rejected_witness :
    call_tool envOk (DBConn.unreachable "never reached") resp500 []
      = { result := Except.error (PyErr.valueError "Query is required"),
          advisoryCalled := false, connectAttempted := false,
          committed := false } :=
  c7_missing_query_rejected envOk configOk (DBConn.unreachable "never reached")
    resp500 [] rfl (Or.inl rfl)

/-- C8 counterexample: a success-status advisory response whose body is
not JSON makes query_claude raise, and the exception escapes Invoke Tool
before any database connection is attempted — the query never executes and
no TextContent is returned — refuting the claim that for any two advisory
responses the query still executes and the same TextContent is returned. -/
theorem c8_json_decode_blocks :
    query_claude respHtml = Except.error PyErr.jsonDecodeError
    ∧ call_tool envOk
        (DBConn.reachable (fun _ => Except.ok ⟨["1"], [[PyVal.int 1]], 1⟩))
        respHtml [("query", "SELECT 1")]
      = { result := Except.error PyErr.jsonDecodeError,
          advisoryCalled := true, connectAttempted := false,
          committed := false } :=
  ⟨rfl, rfl⟩

/-- C8 amended: the advisory client is observational on every response it
survives — on a non-success HTTP status it returns a string embedding the
status code and body rather than failing, and Invoke Tool's entire
observable outcome (returned TextContents and all effect flags) is
identical for any two advisory responses on which query_claude returns;
but a success-status response with a non-JSON body raises before the query
executes. -/
theorem c8_advisory_observational :
    (∀ resp : HttpResponse, resp.status_code ≠ 200 →
      query_claude resp
        = Except.ok ("Error: " ++ toString resp.status_code ++ " - " ++ resp.text))
    ∧ (∀ (env : Env) (db : DBConn) (args : List (String × String))
        (resp1 resp2 : HttpResponse) (s1 s2 : String),
        query_claude resp1 = Except.ok s1 →
        query_claude resp2 = Except.ok s2 →
        call_tool env db resp1 args = call_tool env db resp2 args) := by
  constructor
  · intro resp h
    simp [query_claude, h]
  · intro env db args resp1 resp2 s1 s2 h1 h2
    simp only [call_tool, h1, h2]

/-- Witness for the amended C8: a simulated HTTP 500 advisory failure
yields the embedded-status string, and the tool outcome with it equals the
outcome with a successful JSON advisory response. -/
theorem c8_advisory_observational_witness :
    query_claude resp500 = Except.ok "Error: 500 - oops"
    ∧ call_tool envOk (DBConn.unreachable "boom") resp500 [("query", "SELECT 1")]
        = call_tool envOk (DBConn.unreachable "boom") resp200 [("query", "SELECT 1")] :=
  ⟨c8_advisory_observational.1 resp500 (by decide),
   c8_advisory_observational.2 envOk (DBConn.unreachable "boom")
     [("query", "SELECT 1")] resp500 resp200 "Error: 500 - oops" "fine" rfl rfl⟩

/-- C10: List Resources degrades to the empty sequence only for database
driver errors (unreachable database or failing SHOW TABLES); the
configuration is built before the error-handled scope, so a
missing-configuration error propagates out of the handler instead of
yielding the empty sequence. -/
theorem c10_degrade_scope :
    (∀ (env : Env) (db : DBConn) (e : PyErr),
        get_db_config env = Except.error e →
        list_resources env db = Except.error e)
    ∧ (∀ (env : Env) (config : Config) (msg : String),
        get_db_config env = Except.ok config →
        list_resources env (DBConn.unreachable msg) = Except.ok [])
    ∧ (∀ (env : Env) (config : Config)
        (execQ : String → Except String DBResult) (msg : String),
        get_db_config env = Except.ok config →
        execQ "SHOW TABLES" = Except.error msg →
        list_resources env (DBConn.reachable execQ) = Except.ok []) := by
  refine ⟨fun env db e he => ?_, fun env config msg hc => ?_,
    fun env config execQ msg hc he => ?_⟩
  · simp [list_resources, he]
  · simp [list_resources, hc]
  · simp [list_resources, hc, he]

/-- Witness for C10: with MYSQL_USER unset the missing-configuration
ValueError propagates out of List Resources, while with a valid
configuration both an unreachable database and a failing SHOW TABLES
degrade to the empty sequence. -/
theorem c10_degrade_scope_witness :
    list_resources envNoUser (DBConn.unreachable "x")
      = Except.error (PyErr.valueError "Missing required database configuration")
    ∧ list_resources envOk (DBConn.unreachable "boom") = Except.ok []
    ∧ list_resources envOk (DBConn.reachable (fun _ => Except.error "table gone"))
      = Except.ok [] :=
  ⟨c10_degrade_scope.1 envNoUser (DBConn.unreachable "x")
      (PyErr.valueError "Missing required database configuration") rfl,
   c10_degrade_scope.2.1 envOk configOk "boom" rfl,
   c10_degrade_scope.2.2 envOk configOk (fun _ => Except.error "table gone")
     "table gone" rfl rfl⟩

end MySQLMCP
